import Mathlib

/-!
Shallow embedding of the `AsyncClient` connection object of
`src/ESPAsuncTCP/ESPAsyncTCP.cpp` (an asynchronous TCP client layered on
lwip).  Each C++ method becomes a Lean function on an explicit state
record; every outward-visible action — a call into the lwip transport or
an invocation of an application callback — is recorded, in order, in a
trace of `Act` events returned alongside the new state.  Machine
integers (`uint32_t millis()` timestamps) are modelled as `Nat` with the
wrap-around subtraction `usub32` where the C code subtracts them.
-/

/-- The fields of the lwip `tcp_pcb` that the client reads: the protocol
state (`0` = Closed … `4` = Established … `10` = TimeWait) and `snd_buf`,
the free send-buffer space reported by `tcp_sndbuf`. -/
structure TcpPcb where
  state : Nat
  snd_buf : Nat
  deriving DecidableEq

/-- An outward-visible action of the connection object: a call into the
lwip transport, or an invocation of an application callback.  The
`held` flag of `tcpRecved` records whether the pcb pointer passed to
`tcp_recved` was non-null; `false` marks a call on a NULL handle (a null
dereference inside lwip). -/
inductive Act where
  | tcpWrite (len : Nat)
  | tcpOutput
  | tcpRecved (held : Bool) (len : Nat)
  | tcpClose
  | tcpAbort
  | tcpDereg
  | tcpConnect (port : Nat)
  | cbConnect
  | cbDisconnect
  | cbError (code : Int)
  | cbData (len : Nat)
  | cbAck (len : Nat) (elapsed : Nat)
  | cbTimeout (elapsed : Nat)
  | cbPoll
  deriving DecidableEq

/-- The connection object's state.  `_pcb` is the owned transport handle
(or `none`); the seven `…CbSet` booleans record whether the
corresponding single-slot callback is installed (the C code guards each
invocation with a null check on the stored function pointer); the other
fields are the private members of `AsyncClient`, with the same names. -/
structure AsyncClient where
  _pcb : Option TcpPcb
  connectCbSet : Bool
  discardCbSet : Bool
  sentCbSet : Bool
  errorCbSet : Bool
  recvCbSet : Bool
  timeoutCbSet : Bool
  pollCbSet : Bool
  _pcb_busy : Bool
  _pcb_sent_at : Nat
  _close_pcb : Bool
  _ack_pcb : Bool
  _rx_last_packet : Nat
  _rx_since_timeout : Nat
  _ack_timeout : Nat
  _rx_ack_len : Nat
  _connect_port : Nat
  deriving DecidableEq

/-- Wrap-around subtraction of two `uint32_t` values, as C computes
`a - b` on unsigned 32-bit operands. -/
def usub32 (a b : Nat) : Nat :=
  (a % 4294967296 + 4294967296 - b % 4294967296) % 4294967296

/-- Wrap-around product of two `uint32_t` values, as C computes `a * b`
on unsigned 32-bit operands. -/
def umul32 (a b : Nat) : Nat :=
  a % 4294967296 * (b % 4294967296) % 4294967296

/-- The connection-aborted error code, as listed by the repository's own
`errorToString` table (`case -8: return "Connection aborted"`). -/
def ERR_ABRT : Int := -8

/-- Model of the lwip collaborator `tcp_write`: queues `len` bytes when
they fit in the pcb's free send buffer, consuming that space, and fails
(`ERR_MEM`, here `none`) otherwise.  lwip owns this admission control;
the client only reacts to the returned error code. -/
def tcp_write (p : TcpPcb) (len : Nat) : Option TcpPcb :=
  if len ≤ p.snd_buf then some { p with snd_buf := p.snd_buf - len } else none

/-- Model of the lwip collaborator `tcp_output`: flushes queued data;
modelled as always succeeding (no failure source is modelled for the
flush itself). -/
def tcp_output (p : TcpPcb) : TcpPcb := p

namespace AsyncClient

/-- Embedding of `AsyncClient::space()`: the free send window — the pcb's `snd_buf`
when a handle is held and its state is Established (`4`), else `0`. -/
def space (c : AsyncClient) : Nat :=
  match c._pcb with
  | some p => if p.state = 4 then p.snd_buf else 0
  | none => 0

/-- Embedding of `AsyncClient::canSend()`: `space() > 0`. -/
def canSend (c : AsyncClient) : Bool :=
  c.space > 0

/-- Embedding of `AsyncClient::state()`: `0` when no handle is held, else the pcb's
protocol state. -/
def state (c : AsyncClient) : Nat :=
  match c._pcb with
  | some p => p.state
  | none => 0

/-- Embedding of `AsyncClient::connected()`: handle held and Established. -/
def connected (c : AsyncClient) : Bool :=
  match c._pcb with
  | some p => p.state = 4
  | none => false

/-- Embedding of `AsyncClient::ack(len)`: clamps `len` to `_rx_ack_len`, calls
`tcp_recved` for the clamped amount when it is nonzero, decrements the
backlog by that amount and returns it.  It does not touch `_ack_pcb`. -/
def ack (c : AsyncClient) (len : Nat) : Nat × AsyncClient × List Act :=
  let l := if len > c._rx_ack_len then c._rx_ack_len else len
  (l, { c with _rx_ack_len := c._rx_ack_len - l },
    if l ≠ 0 then [Act.tcpRecved c._pcb.isSome l] else [])

/-- Embedding of `AsyncClient::_close()`: when a handle is held, deregister every
transport callback, `tcp_close` the pcb (modelled as succeeding, so the
`abort()` fallback is not taken), drop the handle, and invoke the
`onDisconnect` (`_discard_cb`) callback when installed. -/
def _close (c : AsyncClient) : Int × AsyncClient × List Act :=
  match c._pcb with
  | some _ =>
    (0, { c with _pcb := none },
      [Act.tcpDereg, Act.tcpClose] ++
        (if c.discardCbSet then [Act.cbDisconnect] else []))
  | none => (0, c, [])

/-- Embedding of `AsyncClient::close(now)`: first calls `tcp_recved(_pcb, _rx_ack_len)`
unconditionally — even when `_pcb` is NULL, which the trace records as a
`tcpRecved false _` event — then either closes immediately or sets the
deferred-close flag `_close_pcb`. -/
def close (c : AsyncClient) (now_flag : Bool) : AsyncClient × List Act :=
  let tr0 := [Act.tcpRecved c._pcb.isSome c._rx_ack_len]
  if now_flag then
    let r := c._close
    (r.2.1, tr0 ++ r.2.2)
  else
    ({ c with _close_pcb := true }, tr0)

/-- Embedding of `AsyncClient::stop()`: alias for `close(false)`. -/
def stop (c : AsyncClient) : AsyncClient × List Act :=
  c.close false

/-- Embedding of `AsyncClient::_error(err)`: on a transport-reported fatal error,
deregister all transport callbacks and drop the handle (when held), then
invoke `onError` (when installed), then `onDisconnect` (when
installed). -/
def _error (c : AsyncClient) (err : Int) : AsyncClient × List Act :=
  let s := match c._pcb with
    | some _ => ({ c with _pcb := none }, [Act.tcpDereg])
    | none => (c, ([] : List Act))
  (s.1, s.2 ++
    (if c.errorCbSet then [Act.cbError err] else []) ++
    (if c.discardCbSet then [Act.cbDisconnect] else []))

/-- Embedding of `AsyncClient::abort()`: if a handle is held, `tcp_abort` it;
always returns `ERR_ABRT`.  `abort()` does not deregister the error
callback first (unlike `_close`, which nulls `tcp_err` before closing),
and lwip's `tcp_abort` synchronously delivers `ERR_ABRT` through the
registered error callback while freeing the pcb — so the call runs
`_error(ERR_ABRT)` inline: callbacks deregistered, handle dropped,
`onError` then `onDisconnect` fired.  The `_pcb = NULL` assignment after
`tcp_abort` is then a no-op, `_error` having already cleared it. -/
def abort (c : AsyncClient) : Int × AsyncClient × List Act :=
  match c._pcb with
  | some _ =>
    let r := c._error ERR_ABRT
    (ERR_ABRT, r.1, Act.tcpAbort :: r.2)
  | none => (ERR_ABRT, c, [])

/-- Embedding of `AsyncClient::_sent(pcb, len)`: a sent-confirmation from the
transport stamps `_rx_last_packet` with the current time, clears the
in-flight flag, and invokes `onAck` with the length and the elapsed
time since the send. -/
def _sent (c : AsyncClient) (now len : Nat) : AsyncClient × List Act :=
  ({ c with _rx_last_packet := now, _pcb_busy := false },
    if c.sentCbSet then [Act.cbAck len (usub32 now c._pcb_sent_at)] else [])

/-- Embedding of `AsyncClient::write(data, size)`: returns `0` when no handle is held,
the size is zero, or `canSend()` fails; otherwise queues
`will_send = min(tcp_sndbuf, size)` bytes with `tcp_write`, flushes with
`tcp_output`, stamps `_pcb_sent_at` and sets `_pcb_busy`, and — when
fewer bytes fit than requested — tail-recurses on the remainder, adding
its result.  The payload pointer is not modelled (only sizes matter to
the control flow; the `data == NULL` early return is the caller passing
no payload). -/
def write (c : AsyncClient) (now size : Nat) : Nat × AsyncClient × List Act :=
  match hp : c._pcb with
  | none => (0, c, [])
  | some p =>
    if hsz : size = 0 then (0, c, [])
    else if hcs : c.canSend = true then
      let will_send := min p.snd_buf size
      match tcp_write p will_send with
      | none => (0, c, [Act.tcpWrite will_send])
      | some p1 =>
        let p2 := tcp_output p1
        let c1 : AsyncClient :=
          { c with _pcb := some p2, _pcb_sent_at := now, _pcb_busy := true }
        if will_send < size then
          let r := write c1 now (size - will_send)
          (will_send + r.1, r.2.1,
            Act.tcpWrite will_send :: Act.tcpOutput :: r.2.2)
        else (size, c1, [Act.tcpWrite will_send, Act.tcpOutput])
    else (0, c, [])
  termination_by size
  decreasing_by
    simp only [AsyncClient.canSend, AsyncClient.space, hp, decide_eq_true_eq] at hcs
    split at hcs <;> omega

/-- One pass of the `while(pb != NULL)` loop of `AsyncClient::_recv`,
over the chain of segment lengths: per segment, set the per-delivery
auto-ack flag `_ack_pcb` to `true`, invoke the `onData` handler `h`
(when installed) with the segment, then either add the length to the
`_rx_ack_len` backlog (handler cleared the flag) or `tcp_recved` it to
the transport (flag still set). -/
def recvSegs (h : AsyncClient → Nat → AsyncClient × List Act) :
    AsyncClient → List Nat → AsyncClient × List Act
  | c, [] => (c, [])
  | c, len :: rest =>
    let c0 : AsyncClient := { c with _ack_pcb := true }
    let s1 := if c0.recvCbSet then
        let r := h c0 len
        (r.1, Act.cbData len :: r.2)
      else (c0, ([] : List Act))
    let s2 := if s1.1._ack_pcb = false then
        ({ s1.1 with _rx_ack_len := s1.1._rx_ack_len + len }, ([] : List Act))
      else (s1.1, [Act.tcpRecved true len])
    let s3 := recvSegs h s2.1 rest
    (s3.1, s1.2 ++ s2.2 ++ s3.2)

/-- Embedding of `AsyncClient::_recv(pcb, pb, err)`: a NULL pbuf (`pb = none`) is a
peer-initiated close and runs `_close()`; otherwise the last-receive
timestamp is stamped and the segment chain is processed by `recvSegs`.
The application's `onData` behaviour is the parameter `h`: what the
handler does to the connection object (and any transport calls it
makes) during the callback. -/
def _recv (c : AsyncClient) (h : AsyncClient → Nat → AsyncClient × List Act)
    (now : Nat) (pb : Option (List Nat)) : AsyncClient × List Act :=
  match pb with
  | none =>
    let r := c._close
    (r.2.1, r.2.2)
  | some segs => recvSegs h { c with _rx_last_packet := now } segs

/-- Embedding of `AsyncClient::_poll(pcb)`: the periodic tick.  In order: a pending
deferred close is performed; else the ack timeout (in-flight send,
nonzero `_ack_timeout`, elapsed ≥ threshold) clears the in-flight flag
and fires `onTimeout`; else the idle-receive timeout (nonzero
`_rx_since_timeout`, elapsed ≥ the uint32 product `_rx_since_timeout *
1000`, which the C source computes in 32 bits and so wraps mod 2^32)
closes the connection; else `onPoll` fires.  Exactly one branch runs. -/
def _poll (c : AsyncClient) (now : Nat) : AsyncClient × List Act :=
  if c._close_pcb then
    let r := AsyncClient._close { c with _close_pcb := false }
    (r.2.1, r.2.2)
  else if c._pcb_busy = true ∧ c._ack_timeout ≠ 0 ∧
      c._ack_timeout ≤ usub32 now c._pcb_sent_at then
    ({ c with _pcb_busy := false },
      if c.timeoutCbSet then [Act.cbTimeout (usub32 now c._pcb_sent_at)] else [])
  else if c._rx_since_timeout ≠ 0 ∧
      umul32 c._rx_since_timeout 1000 ≤ usub32 now c._rx_last_packet then
    let r := c._close
    (r.2.1, r.2.2)
  else
    (c, if c.pollCbSet then [Act.cbPoll] else [])

end AsyncClient

/-- The environment facts `connect(IPAddress, port)` consults: whether
`ip_route` finds an interface and whether `tcp_new` can allocate a
pcb. -/
structure Env where
  hasRoute : Bool
  allocOk : Bool
  deriving DecidableEq

namespace AsyncClient

/-- Embedding of `AsyncClient::connect(IPAddress, port)`: fails when a handle is
already held, no route exists, or pcb allocation fails; otherwise
registers the error callback on the fresh pcb and issues the
asynchronous `tcp_connect` (the handle is stored only later, by the
`_connected` completion callback, so the state is unchanged here). -/
def connect_ip (c : AsyncClient) (env : Env) (port : Nat) :
    Bool × AsyncClient × List Act :=
  if c._pcb.isSome then (false, c, [])
  else if env.hasRoute = false then (false, c, [])
  else if env.allocOk = false then (false, c, [])
  else (true, c, [Act.tcpConnect port])

/-- Outcome of `dns_gethostbyname` as seen by
`AsyncClient::connect(const char*, port)`: synchronous success,
`ERR_INPROGRESS`, or synchronous failure. -/
inductive DnsOutcome where
  | ok
  | inProgress
  | failed
  deriving DecidableEq

/-- Embedding of `AsyncClient::connect(const char*, port)`: on synchronous resolution
delegates to the address form; on `ERR_INPROGRESS` records the target
port in `_connect_port` and returns `true` optimistically; on any other
error returns `false`. -/
def connect_host (c : AsyncClient) (env : Env) (dns : DnsOutcome) (port : Nat) :
    Bool × AsyncClient × List Act :=
  match dns with
  | .ok => connect_ip c env port
  | .inProgress => (true, { c with _connect_port := port }, [])
  | .failed => (false, c, [])

/-- Embedding of `AsyncClient::_dns_found(ipaddr)`: when the resolver delivers an
address, retries `connect` with the recorded `_connect_port`; when it
delivers none (resolution failed), invokes `onError` with the reserved
code `-55` and then `onDisconnect` — no handle is touched. -/
def _dns_found (c : AsyncClient) (env : Env) (resolved : Bool) :
    AsyncClient × List Act :=
  if resolved then
    let r := c.connect_ip env c._connect_port
    (r.2.1, r.2.2)
  else
    (c, (if c.errorCbSet then [Act.cbError (-55)] else []) ++
      (if c.discardCbSet then [Act.cbDisconnect] else []))

end AsyncClient

/-!
Concrete fixtures used by the witnesses and counterexamples below.
-/

/-- A concrete Established pcb with 100 bytes of free send buffer. -/
def pcb100 : TcpPcb := { state := 4, snd_buf := 100 }

/-- A concrete connection object: handle held and Established with 100
bytes of send window, every callback installed, no send in flight, no
deferred close, empty receive backlog, ack timeout 1000 ms, idle-receive
timeout disabled. -/
def cEx : AsyncClient :=
  { _pcb := some pcb100
    connectCbSet := true
    discardCbSet := true
    sentCbSet := true
    errorCbSet := true
    recvCbSet := true
    timeoutCbSet := true
    pollCbSet := true
    _pcb_busy := false
    _pcb_sent_at := 0
    _close_pcb := false
    _ack_pcb := true
    _rx_last_packet := 0
    _rx_since_timeout := 0
    _ack_timeout := 1000
    _rx_ack_len := 0
    _connect_port := 0 }

/-- The same connection object with no handle held. -/
def cNone : AsyncClient := { cEx with _pcb := none }

/-- An onData handler that calls `ack(0)` during the callback (the
behaviour the C3 scenario prescribes). -/
def onDataAck0 (c : AsyncClient) (len : Nat) : AsyncClient × List Act :=
  let r := c.ack 0
  (r.2.1, r.2.2)

/-- Modelled from the spec: the opt-out that clears the per-delivery
auto-ack flag (the spec's "the handler cleared the flag"; the header's
`ackLater()`, which is not under `src/` — the `.cpp` there never clears
`_ack_pcb`). -/
def ackLater (c : AsyncClient) : AsyncClient :=
  { c with _ack_pcb := false }

/-- An onData handler that opts out of automatic acknowledgment by
clearing the auto-ack flag. -/
def onDataOptOut (c : AsyncClient) (len : Nat) : AsyncClient × List Act :=
  (ackLater c, [])

/-- C6: for every requested length n and current backlog b, `ack(n)`
returns min(n, b) — the number of bytes actually acknowledged — leaves
the backlog at max(0, b − n), and issues a `tcp_recved` for exactly
min(n, b) bytes (no transport call when that is zero). -/
theorem claim_C6_ack_clamps (c : AsyncClient) (n : Nat) :
    (c.ack n).1 = min n c._rx_ack_len ∧
    ((c.ack n).2.1._rx_ack_len : Int) = max 0 ((c._rx_ack_len : Int) - n) ∧
    (c.ack n).2.2 =
      (if min n c._rx_ack_len ≠ 0 then
        [Act.tcpRecved c._pcb.isSome (min n c._rx_ack_len)] else []) := by
  rcases le_or_lt n c._rx_ack_len with h | h
  · simp [AsyncClient.ack, Nat.not_lt.2 h, Nat.min_eq_left h]
    omega
  · simp [AsyncClient.ack, h, Nat.min_eq_right h.le]
    omega

/-- C9: with no handle held the observable state is Closed (0), the
free send window is 0 and `canSend()` is false; and `canSend()` is true
exactly when the handle is held in the Established state (4) with a
nonzero free send window. -/
theorem claim_C9_closed_state (c : AsyncClient) :
    (c._pcb = none → c.state = 0 ∧ c.canSend = false ∧ c.space = 0) ∧
    (c.canSend = true ↔ ∃ p, c._pcb = some p ∧ p.state = 4 ∧ 0 < p.snd_buf) := by
  constructor
  · intro h
    simp [AsyncClient.state, AsyncClient.canSend, AsyncClient.space, h]
  · cases hp : c._pcb with
    | none => simp [AsyncClient.canSend, AsyncClient.space, hp]
    | some p =>
      simp only [AsyncClient.canSend, AsyncClient.space, hp, decide_eq_true_eq,
        Option.some.injEq]
      constructor
      · intro h
        refine ⟨p, rfl, ?_⟩
        by_cases h4 : p.state = 4 <;> simp [h4] at h ⊢
        exact h
      · rintro ⟨q, rfl, h4, hb⟩
        simp [h4, hb]

/-- Witness for C9 at a concrete connection object with no handle. -/
theorem claim_C9_witness :
    cNone.state = 0 ∧ cNone.canSend = false ∧ cNone.space = 0 :=
  (claim_C9_closed_state cNone).1 rfl

/-- C4: on a transport-reported fatal error with a handle held, `_error`
deregisters the transport callbacks, releases the handle, and the
callback trace is exactly `onError` (when installed) followed by
`onDisconnect`; `onDisconnect` fires even with no `onError` handler
installed, and `onError`, when present, precedes it. -/
theorem claim_C4_error_order (c : AsyncClient) (p : TcpPcb) (err : Int)
    (hp : c._pcb = some p) (hd : c.discardCbSet = true) :
    (c._error err).1._pcb = none ∧
    (c._error err).2 =
      Act.tcpDereg ::
        (if c.errorCbSet then [Act.cbError err, Act.cbDisconnect]
         else [Act.cbDisconnect]) := by
  unfold AsyncClient._error
  simp [hp, hd]
  by_cases he : c.errorCbSet <;> simp [he]

/-- Witness for C4 at a concrete client with both handlers installed. -/
theorem claim_C4_witness :
    (cEx._error (-9)).1._pcb = none ∧
    (cEx._error (-9)).2 = [Act.tcpDereg, Act.cbError (-9), Act.cbDisconnect] := by
  have h := claim_C4_error_order cEx pcb100 (-9) rfl rfl
  simpa using h

/-- C2: with a handle held and the `onDisconnect` handler installed,
every path that releases the handle (held → none) invokes
`onDisconnect` for that release: explicit `_close`, transport-fatal
`_error`, peer-initiated close (empty delivery), a deferred close
performed on a tick, and `abort()` — whose `tcp_abort` synchronously
delivers `ERR_ABRT` through the still-registered error callback, so the
release runs through `_error` and fires `onError(-8)` then
`onDisconnect`. -/
theorem claim_C2_all_paths_disconnect (c : AsyncClient) (p : TcpPcb) (err : Int)
    (now : Nat) (h : AsyncClient → Nat → AsyncClient × List Act)
    (hp : c._pcb = some p) (hd : c.discardCbSet = true) :
    ((c._close).2.1._pcb = none ∧ Act.cbDisconnect ∈ (c._close).2.2) ∧
    ((c._error err).1._pcb = none ∧ Act.cbDisconnect ∈ (c._error err).2) ∧
    ((c._recv h now none).1._pcb = none ∧
      Act.cbDisconnect ∈ (c._recv h now none).2) ∧
    (({ c with _close_pcb := true })._poll now).1._pcb = none ∧
    Act.cbDisconnect ∈ (({ c with _close_pcb := true })._poll now).2 ∧
    ((c.abort).2.1._pcb = none ∧ Act.cbDisconnect ∈ (c.abort).2.2) := by
  refine ⟨?_, ?_, ?_, ?_, ?_, ?_⟩
  · simp [AsyncClient._close, hp, hd]
  · simp [AsyncClient._error, hp, hd]
  · simp [AsyncClient._recv, AsyncClient._close, hp, hd]
  · simp [AsyncClient._poll, AsyncClient._close, hp, hd]
  · simp [AsyncClient._poll, AsyncClient._close, hp, hd]
  · simp [AsyncClient.abort, AsyncClient._error, hp, hd]

/-- Witness for C2 at a concrete client with the handle held and all
handlers installed. -/
theorem claim_C2_witness :
    ((cEx._close).2.1._pcb = none ∧ Act.cbDisconnect ∈ (cEx._close).2.2) ∧
    ((cEx._error (-9)).1._pcb = none ∧
      Act.cbDisconnect ∈ (cEx._error (-9)).2) ∧
    ((cEx._recv (fun s _ => (s, [])) 5 none).1._pcb = none ∧
      Act.cbDisconnect ∈ (cEx._recv (fun s _ => (s, [])) 5 none).2) ∧
    (({ cEx with _close_pcb := true })._poll 5).1._pcb = none ∧
    Act.cbDisconnect ∈ (({ cEx with _close_pcb := true })._poll 5).2 ∧
    ((cEx.abort).2.1._pcb = none ∧ Act.cbDisconnect ∈ (cEx.abort).2.2) :=
  claim_C2_all_paths_disconnect cEx pcb100 (-9) 5 (fun s _ => (s, [])) rfl rfl

/-- C5 is right about the code's intent but the code slips: the first
`close(true)` releases the handle and fires `onDisconnect` once; the
second `close(true)` indeed changes no state and fires no duplicate
`onDisconnect`, but it is not free of transport operations — it calls
`tcp_recved(_pcb, _rx_ack_len)` with `_pcb` already NULL (the
`tcpRecved false 0` event), a null dereference inside lwip. -/
theorem claim_C5_second_close_null_recved :
    (cEx.close true).1._pcb = none ∧
    Act.cbDisconnect ∈ (cEx.close true).2 ∧
    ((cEx.close true).1.close true).1 = (cEx.close true).1 ∧
    Act.cbDisconnect ∉ ((cEx.close true).1.close true).2 ∧
    ((cEx.close true).1.close true).2 = [Act.tcpRecved false 0] := by
  refine ⟨rfl, ?_, rfl, ?_, rfl⟩ <;> decide

/-- C7: a hostname connect whose resolution goes asynchronous
(`ERR_INPROGRESS`) returns true with no callback and records the port;
when the resolver later delivers no address, the client fires exactly
one `onError` with the reserved code −55 followed by exactly one
`onDisconnect`, never fires `onConnect`, and no handle is ever held. -/
theorem claim_C7_dns_failure (c : AsyncClient) (env : Env) (port : Nat)
    (hp : c._pcb = none) (he : c.errorCbSet = true)
    (hd : c.discardCbSet = true) :
    (c.connect_host env .inProgress port).1 = true ∧
    (c.connect_host env .inProgress port).2.2 = [] ∧
    (c.connect_host env .inProgress port).2.1 =
      { c with _connect_port := port } ∧
    (({ c with _connect_port := port })._dns_found env false).1 =
      { c with _connect_port := port } ∧
    (({ c with _connect_port := port })._dns_found env false).1._pcb = none ∧
    (({ c with _connect_port := port })._dns_found env false).2 =
      [Act.cbError (-55), Act.cbDisconnect] ∧
    Act.cbConnect ∉ (({ c with _connect_port := port })._dns_found env false).2 := by
  refine ⟨rfl, rfl, rfl, ?_, ?_, ?_, ?_⟩ <;>
    simp [AsyncClient._dns_found, hp, he, hd]

/-- Witness for C7 at a concrete unconnected client. -/
theorem claim_C7_witness :
    (cNone.connect_host { hasRoute := true, allocOk := true } .inProgress 80).1 = true ∧
    (cNone.connect_host { hasRoute := true, allocOk := true } .inProgress 80).2.2 = [] ∧
    (cNone.connect_host { hasRoute := true, allocOk := true } .inProgress 80).2.1 =
      { cNone with _connect_port := 80 } ∧
    (({ cNone with _connect_port := 80 })._dns_found
        { hasRoute := true, allocOk := true } false).1 =
      { cNone with _connect_port := 80 } ∧
    (({ cNone with _connect_port := 80 })._dns_found
        { hasRoute := true, allocOk := true } false).1._pcb = none ∧
    (({ cNone with _connect_port := 80 })._dns_found
        { hasRoute := true, allocOk := true } false).2 =
      [Act.cbError (-55), Act.cbDisconnect] ∧
    Act.cbConnect ∉ (({ cNone with _connect_port := 80 })._dns_found
        { hasRoute := true, allocOk := true } false).2 :=
  claim_C7_dns_failure cNone { hasRoute := true, allocOk := true } 80 rfl rfl rfl

/-- C10: a sent-confirmation `_sent` at time `now` stamps
`_rx_last_packet` with `now`, and a subsequent tick at `now2` still
inside the idle-receive window — elapsed strictly below the uint32
threshold `umul32 _rx_since_timeout 1000` the program compares against —
(and with no deferred close pending) leaves the connection unchanged and
performs no transport close: the idle-receive check is postponed by
outbound acknowledgments alone, with no inbound data. -/
theorem claim_C10_sent_postpones_idle (c : AsyncClient) (now len now2 : Nat)
    (hcp : c._close_pcb = false)
    (hwin : usub32 now2 now < umul32 c._rx_since_timeout 1000) :
    (c._sent now len).1._rx_last_packet = now ∧
    ((c._sent now len).1._poll now2).1 = (c._sent now len).1 ∧
    Act.tcpClose ∉ ((c._sent now len).1._poll now2).2 := by
  have hpoll : (c._sent now len).1._poll now2 =
      ((c._sent now len).1,
        if (c._sent now len).1.pollCbSet then [Act.cbPoll] else []) := by
    unfold AsyncClient._poll
    rw [if_neg (by simp [AsyncClient._sent, hcp]),
      if_neg (by simp [AsyncClient._sent]),
      if_neg (by simp only [AsyncClient._sent]; rintro ⟨-, hle⟩; omega)]
  refine ⟨rfl, ?_, ?_⟩ <;> rw [hpoll]
  split <;> simp

/-- Witness for C10: idle timeout 5 s, sent-confirmation at t = 1000 ms,
tick at t = 3000 ms (elapsed 2000 ms < 5000 ms). -/
theorem claim_C10_witness :
    (({ cEx with _rx_since_timeout := 5 })._sent 1000 10).1._rx_last_packet = 1000 ∧
    ((({ cEx with _rx_since_timeout := 5 })._sent 1000 10).1._poll 3000).1 =
      (({ cEx with _rx_since_timeout := 5 })._sent 1000 10).1 ∧
    Act.tcpClose ∉ ((({ cEx with _rx_since_timeout := 5 })._sent 1000 10).1._poll 3000).2 :=
  claim_C10_sent_postpones_idle { cEx with _rx_since_timeout := 5 } 1000 10 3000
    rfl (by decide)

/-- Counterexample to C3: at a concrete Established client whose onData
handler calls `ack(0)`, a 40-byte delivery leaves
`unacknowledgedReceiveBytes` at 0 — not 40 — and the core auto-acks the
40 bytes to the transport during the delivery, because `ack` never
clears the per-delivery auto-ack flag `_ack_pcb`, so calling `ack(0)` is
not an opt-out. -/
theorem claim_C3_cex :
    (cEx._recv onDataAck0 7 (some [40])).1._rx_ack_len = 0 ∧
    (cEx._recv onDataAck0 7 (some [40])).2 =
      [Act.cbData 40, Act.tcpRecved true 40] := by
  refine ⟨?_, ?_⟩ <;> decide

/-- C3 as amended: opting out of auto-ack is done by clearing the
per-delivery auto-ack flag, not by calling `ack(0)`.  With an onData
handler that clears the flag, a 40-byte delivery leaves the backlog at
40 with no bytes acknowledged to the transport during the delivery, and
a subsequent `ack(25)` acknowledges exactly 25 bytes to the transport
and leaves the backlog at 15. -/
theorem claim_C3_amended (c : AsyncClient) (p : TcpPcb) (now : Nat)
    (hp : c._pcb = some p) (hr : c.recvCbSet = true)
    (hb : c._rx_ack_len = 0) :
    (c._recv onDataOptOut now (some [40])).1._rx_ack_len = 40 ∧
    (c._recv onDataOptOut now (some [40])).2 = [Act.cbData 40] ∧
    ((c._recv onDataOptOut now (some [40])).1.ack 25).1 = 25 ∧
    ((c._recv onDataOptOut now (some [40])).1.ack 25).2.1._rx_ack_len = 15 ∧
    ((c._recv onDataOptOut now (some [40])).1.ack 25).2.2 =
      [Act.tcpRecved true 25] := by
  have hrecv : c._recv onDataOptOut now (some [40]) =
      ({ c with
          _rx_last_packet := now
          _ack_pcb := false
          _rx_ack_len := c._rx_ack_len + 40 },
        [Act.cbData 40]) := by
    simp [AsyncClient._recv, AsyncClient.recvSegs, onDataOptOut, ackLater, hr]
  rw [hrecv]
  simp [AsyncClient.ack, hb, hp]

/-- Witness for the amended C3 at a concrete Established client. -/
theorem claim_C3_amended_witness :
    (cEx._recv onDataOptOut 7 (some [40])).1._rx_ack_len = 40 ∧
    (cEx._recv onDataOptOut 7 (some [40])).2 = [Act.cbData 40] ∧
    ((cEx._recv onDataOptOut 7 (some [40])).1.ack 25).1 = 25 ∧
    ((cEx._recv onDataOptOut 7 (some [40])).1.ack 25).2.1._rx_ack_len = 15 ∧
    ((cEx._recv onDataOptOut 7 (some [40])).1.ack 25).2.2 =
      [Act.tcpRecved true 25] :=
  claim_C3_amended cEx pcb100 7 rfl rfl rfl

/-- C8: each tick runs exactly one supervisor action, chosen by first
match — (1) a pending deferred close is performed (flag cleared, handle
closed and released when held, `onDisconnect` fired); else (2) when a
send is in flight, `_ack_timeout` is nonzero and the elapsed time since
the send reaches it, the in-flight flag is cleared and `onTimeout` fires
with the elapsed duration, with no close and no poll; else (3) when
`_rx_since_timeout` is nonzero and the idle-receive threshold (the
uint32 product `_rx_since_timeout * 1000`, wrapping mod 2^32 as the C
source computes it) is reached, the connection is closed immediately;
else (4) `onPoll` fires.
Additionally, a tick that fires the ack timeout preserves the handle and
performs neither the idle-receive close nor a poll. -/
theorem claim_C8_tick_dispatch (c : AsyncClient) (now : Nat) :
    (c._poll now =
      if c._close_pcb then
        match c._pcb with
        | some _ =>
          ({ c with _close_pcb := false, _pcb := none },
            [Act.tcpDereg, Act.tcpClose] ++
              (if c.discardCbSet then [Act.cbDisconnect] else []))
        | none => ({ c with _close_pcb := false }, [])
      else if c._pcb_busy = true ∧ c._ack_timeout ≠ 0 ∧
          c._ack_timeout ≤ usub32 now c._pcb_sent_at then
        ({ c with _pcb_busy := false },
          if c.timeoutCbSet then [Act.cbTimeout (usub32 now c._pcb_sent_at)]
          else [])
      else if c._rx_since_timeout ≠ 0 ∧
          umul32 c._rx_since_timeout 1000 ≤ usub32 now c._rx_last_packet then
        match c._pcb with
        | some _ =>
          ({ c with _pcb := none },
            [Act.tcpDereg, Act.tcpClose] ++
              (if c.discardCbSet then [Act.cbDisconnect] else []))
        | none => (c, [])
      else (c, if c.pollCbSet then [Act.cbPoll] else [])) ∧
    (c._close_pcb = false →
      c._pcb_busy = true ∧ c._ack_timeout ≠ 0 ∧
        c._ack_timeout ≤ usub32 now c._pcb_sent_at →
      (c._poll now).1._pcb = c._pcb ∧
        Act.tcpClose ∉ (c._poll now).2 ∧ Act.cbPoll ∉ (c._poll now).2) := by
  constructor
  · unfold AsyncClient._poll AsyncClient._close
    rcases hcp : c._close_pcb with - | -
    · simp only [Bool.false_eq_true, if_false]
      split
      · rfl
      · split
        · cases c._pcb <;> rfl
        · rfl
    · simp only [if_true]
      cases c._pcb <;> rfl
  · intro h1 h2
    unfold AsyncClient._poll
    rw [if_neg (by simp [h1]), if_pos h2]
    refine ⟨rfl, ?_, ?_⟩ <;> split <;> simp

/-- Witness for C8, second part: ack timeout 1000 ms, send in flight
since t = 0, tick at t = 1500 — the handle survives, no close, no
poll. -/
theorem claim_C8_witness :
    (({ cEx with _pcb_busy := true })._poll 1500).1._pcb =
      ({ cEx with _pcb_busy := true } : AsyncClient)._pcb ∧
    Act.tcpClose ∉ (({ cEx with _pcb_busy := true })._poll 1500).2 ∧
    Act.cbPoll ∉ (({ cEx with _pcb_busy := true })._poll 1500).2 :=
  (claim_C8_tick_dispatch { cEx with _pcb_busy := true } 1500).2 rfl
    ⟨rfl, by decide, by decide⟩


/-- Helper: `write` returns 0 with no state change and no transport call
whenever `canSend()` fails (window exhausted or handle not
Established). -/
theorem write_no_send (c : AsyncClient) (now size : Nat)
    (h : ¬ c.canSend = true) : c.write now size = (0, c, []) := by
  rw [AsyncClient.write.eq_def]
  split
  · rfl
  · by_cases hsz : size = 0
    · rw [dif_pos hsz]
    · rw [dif_neg hsz, dif_neg h]

/-- C1: with the handle Established and a free send window of exactly
100 bytes, a single `write` of 250 bytes whose transport write and flush
succeed, with no window replenishment, returns 100: it queues and
flushes min(window, size) = 100 bytes (the only `tcp_write` in the
trace), marks a send in flight, and the recursion on the remaining 150
bytes returns 0 because the window is now 0, so those bytes are dropped,
never queued. -/
theorem claim_C1_write_drops_remainder (c : AsyncClient) (p : TcpPcb) (now : Nat)
    (hp : c._pcb = some p) (hs : p.state = 4) (hw : p.snd_buf = 100) :
    (c.write now 250).1 = 100 ∧
    (c.write now 250).2.1._pcb = some { state := 4, snd_buf := 0 } ∧
    (c.write now 250).2.1._pcb_busy = true ∧
    (c.write now 250).2.2 = [Act.tcpWrite 100, Act.tcpOutput] := by
  obtain ⟨ps, pb⟩ := p
  cases hs
  cases hw
  have hcs : c.canSend = true := by
    simp [AsyncClient.canSend, AsyncClient.space, hp]
  have hstep : c.write now 250 =
      (100 + (AsyncClient.write { c with
          _pcb := some { state := 4, snd_buf := 0 }
          _pcb_sent_at := now
          _pcb_busy := true } now 150).1,
        (AsyncClient.write { c with
          _pcb := some { state := 4, snd_buf := 0 }
          _pcb_sent_at := now
          _pcb_busy := true } now 150).2.1,
        Act.tcpWrite 100 :: Act.tcpOutput ::
          (AsyncClient.write { c with
            _pcb := some { state := 4, snd_buf := 0 }
            _pcb_sent_at := now
            _pcb_busy := true } now 150).2.2) := by
    rw [AsyncClient.write.eq_def]
    split
    next h0 => rw [hp] at h0; cases h0
    next q hq =>
      rw [hp] at hq
      injection hq with hq
      subst hq
      rw [dif_neg (by norm_num), dif_pos hcs]
      norm_num [tcp_write, tcp_output]
  have hrec : AsyncClient.write { c with
      _pcb := some { state := 4, snd_buf := 0 }
      _pcb_sent_at := now
      _pcb_busy := true } now 150 =
      (0, { c with
        _pcb := some { state := 4, snd_buf := 0 }
        _pcb_sent_at := now
        _pcb_busy := true }, []) := by
    apply write_no_send
    simp [AsyncClient.canSend, AsyncClient.space]
  rw [hstep, hrec]
  norm_num

/-- Witness for C1 at a concrete Established client with window 100. -/
theorem claim_C1_witness :
    (cEx.write 3 250).1 = 100 ∧
    (cEx.write 3 250).2.1._pcb = some { state := 4, snd_buf := 0 } ∧
    (cEx.write 3 250).2.1._pcb_busy = true ∧
    (cEx.write 3 250).2.2 = [Act.tcpWrite 100, Act.tcpOutput] :=
  claim_C1_write_drops_remainder cEx pcb100 3 rfl rfl rfl
